import Mathlib

/-!
# Verification of the flusso Option/Result/AsyncResult combinator library

Shallow embedding of the combinator algebra of the `flusso` Python library
(`src/flusso/option.py`, `src/flusso/result.py`, `src/flusso/functions.py`,
`src/flusso/primitives/base.py`, `src/flusso/primitives/exceptions.py`,
`src/flusso/async_result.py`).

Python values are modelled by the inductive type `Val`, which covers the
language null marker `None`, ground data (ints, strings), and the four
container shapes: `Some` dataclass instances, the `Nothing` singleton, and
`Ok` / `Err` dataclass instances.  Python structural equality (`__eq__` on
`Option` and `Result` compares variants and then inner values recursively)
coincides with Lean equality on `Val`.

Python exceptions relevant to the library are modelled by `Fault`; fallible
operations return `Except Fault Val`.
-/

set_option autoImplicit false

namespace Flusso

/-- Python runtime values as seen by the flusso library: the `None` marker,
ground data, and the container dataclass instances.  `Val.some v` is a `Some`
dataclass instance whose `value` field is `v` (the raw instance, as produced
after `Some.__new__` has decided not to normalize); `Val.nothing` is the
process-wide `Nothing` singleton; `Val.ok` / `Val.err` are `Ok` / `Err`
dataclass instances. -/
inductive Val : Type where
  | pynone : Val
  | pyint : Int → Val
  | pystr : String → Val
  | some : Val → Val
  | nothing : Val
  | ok : Val → Val
  | err : Val → Val
  deriving DecidableEq, Repr

/-- Python exceptions raised by the library or by caller-supplied code:
`UnwrapFailedError` (primitives/exceptions.py lines 5-18) stores the container
that caused the failing unwrap in its `halted_container` slot; `ValueError`
carries a message; `RuntimeError` is raised by CPython library machinery such
as `contextlib`; `userExc` is an arbitrary exception object raised by
caller-supplied code, carrying its payload. -/
inductive Fault : Type where
  | unwrapFailed : Val → Fault
  | valueError : String → Fault
  | runtimeError : String → Fault
  | userExc : Val → Fault
  deriving DecidableEq, Repr

/-- `Some.__new__` (option.py lines 12-16): constructing `Some(value)` returns
the `Nothing` singleton when `value is None or value is Nothing`, and otherwise
a `Some` instance wrapping `value`. -/
def Some (value : Val) : Val :=
  if value = Val.pynone ∨ value = Val.nothing then Val.nothing else Val.some value

/-- `Ok(value)` (result.py lines 8-10): a plain dataclass constructor, no
normalization. -/
def Ok (value : Val) : Val := Val.ok value

/-- `Err(value)` (result.py lines 110-112): a plain dataclass constructor, no
normalization. -/
def Err (value : Val) : Val := Val.err value

/-- Receiver is an `Option` (a `Some` instance or the `Nothing` singleton). -/
def isOption : Val → Bool
  | .some _ => true
  | .nothing => true
  | _ => false

/-- Receiver is a `Result` (an `Ok` or `Err` instance). -/
def isResult : Val → Bool
  | .ok _ => true
  | .err _ => true
  | _ => false

/-- `Option.is_some` by variant dispatch: `Some.is_some` (option.py 85-89)
returns `True`, `Nothing.is_some` (option.py 170-174) returns `False`. -/
def is_some : Val → Bool
  | .some _ => true
  | _ => false

/-- `Option.is_none`: `Some.is_none` (option.py 91-95) returns `False`,
`Nothing.is_none` (option.py 176-180) returns `True`. -/
def is_none : Val → Bool
  | .nothing => true
  | _ => false

/-- `Result.is_ok`: `Ok.is_ok` (result.py 97-101) returns `True`,
`Err.is_ok` (result.py 200-204) returns `False`. -/
def is_ok : Val → Bool
  | .ok _ => true
  | _ => false

/-- `Result.is_err`: `Ok.is_err` (result.py 103-107) returns `False`,
`Err.is_err` (result.py 206-210) returns `True`. -/
def is_err : Val → Bool
  | .err _ => true
  | _ => false

/-- `Option.fmap` by variant dispatch: `Some.fmap` (option.py 18-22) returns
`Some(fn(self.value))` (through the normalizing constructor), `Nothing.fmap`
(option.py 101-105) returns `self`.  A non-option receiver has no such method
in Python; the catch-all branch is never exercised by the theorems below. -/
def fmapO (o : Val) (fn : Val → Val) : Val :=
  match o with
  | .some v => Some (fn v)
  | _ => o

/-- `Option.and_then` instrumented with the number of calls made to `fn`:
`Some.and_then` (option.py 24-28) returns `fn(self.value)` (one call),
`Nothing.and_then` (option.py 108-112) returns `self` without calling `fn`
(zero calls). -/
def and_thenO (o : Val) (fn : Val → Val) : Val × Nat :=
  match o with
  | .some v => (fn v, 1)
  | _ => (o, 0)

/-- `Option.filter_by_predicate`: `Some` branch (option.py 30-34) returns
`Some(self.value)` if the predicate holds else `Nothing`; `Nothing` branch
(option.py 114-118) returns `self`. -/
def filterO (o : Val) (p : Val → Bool) : Val :=
  match o with
  | .some v => if p v then Some v else Val.nothing
  | _ => o

/-- `Option.unwrap`: `Some.unwrap` (option.py 36-40) returns the value;
`Nothing.unwrap` (option.py 120-125) raises `UnwrapFailedError(self)`. -/
def unwrapO : Val → Except Fault Val
  | .some v => Except.ok v
  | o => Except.error (Fault.unwrapFailed o)

/-- `Option.ok_or`: `Some.ok_or` (option.py 78-83) returns `Ok(self.value)`;
`Nothing.ok_or` (option.py 163-168) returns `Err(error)`. -/
def ok_or (o : Val) (error : Val) : Val :=
  match o with
  | .some v => Ok v
  | _ => Err error

/-- `Result.ok`: `Ok.ok` (result.py 12-16) returns `Some(self.value)` through
the normalizing constructor; `Err.ok` (result.py 114-118) returns `Nothing`. -/
def okR : Val → Val
  | .ok v => Some v
  | _ => Val.nothing

/-- `Result.err`: `Ok.err` (result.py 18-22) returns `Nothing`; `Err.err`
(result.py 120-124) returns `Some(self.value)`. -/
def errR : Val → Val
  | .err e => Some e
  | _ => Val.nothing

/-- `Result.unwrap`: `Ok.unwrap` (result.py 24-28) returns the value;
`Err.unwrap` (result.py 126-131) raises `UnwrapFailedError(self)`. -/
def unwrapR : Val → Except Fault Val
  | .ok v => Except.ok v
  | r => Except.error (Fault.unwrapFailed r)

/-- `Result.unwrap_err`: `Err.unwrap_err` (result.py 146-150) returns the
error; `Ok.unwrap_err` (result.py 42-47) raises `UnwrapFailedError(self)`. -/
def unwrap_errR : Val → Except Fault Val
  | .err e => Except.ok e
  | r => Except.error (Fault.unwrapFailed r)

/-- `Result.and_then` instrumented with the number of calls made to `fn`:
`Ok.and_then` (result.py 73-77) returns `fn(self.value)` (one call);
`Err.and_then` (result.py 176-180) returns `self` without calling `fn`. -/
def and_thenR (r : Val) (fn : Val → Val) : Val × Nat :=
  match r with
  | .ok v => (fn v, 1)
  | _ => (r, 0)

/-- Outcome, as observed by the caller, of entering a synchronous
`with ... .do(container) as v: body` scope. `fellThrough bodyRan logged` means
control reached the statement after the scope; `bodyRan` records whether the
block body was executed, and `logged` records the fault (if any) that the
scope caught from the body and passed to `logging.error`.  `raised f` means
the fault `f` propagated to the caller of the scope. -/
inductive DoOutcome : Type where
  | fellThrough : Bool → Option Fault → DoOutcome
  | raised : Fault → DoOutcome
  deriving DecidableEq, Repr

/-- `Option.do` (primitives/base.py lines 67-77) under the CPython
`contextlib.contextmanager` protocol.  The generator body is:
`if option.is_some(): try: yield option.unwrap() except Exception as e:
logging.error(...) else: return`.  Its semantics for a caller writing
`with Option.do(o) as v: body`:

* `is_some` holds exactly on `Some` receivers, and then `option.unwrap()`
  returns the wrapped value, which is yielded; the body runs with it bound.
  If the body raises a fault, `_GeneratorContextManager.__exit__` throws it
  into the generator at the yield point, the `except Exception` clause catches
  and logs it, the generator then finishes, and the exit handler suppresses
  the fault: control falls through after the scope.
* When `is_some` is false the generator returns without ever yielding, so
  `_GeneratorContextManager.__enter__` receives `StopIteration` from
  `next(self.gen)` and raises `RuntimeError` (message: generator did not
  yield) to the caller of the scope: the body is skipped, but an exception
  escapes. -/
def optionDo (o : Val) (body : Val → Except Fault Unit) : DoOutcome :=
  match o with
  | .some v =>
    match body v with
    | .ok _ => .fellThrough true none
    | .error e => .fellThrough true (Option.some e)
  | _ => .raised (.runtimeError "generator did not yield")

/-- `Result.do` (primitives/base.py lines 146-155), identical to `optionDo`
with `is_ok` / `Result.unwrap` dispatch: for an `Ok` receiver the value is
yielded and body faults are caught and logged; for any other receiver the
generator returns without yielding and the `contextmanager` protocol raises
`RuntimeError` to the caller. -/
def resultDo (r : Val) (body : Val → Except Fault Unit) : DoOutcome :=
  match r with
  | .ok v =>
    match body v with
    | .ok _ => .fellThrough true none
    | .error e => .fellThrough true (Option.some e)
  | _ => .raised (.runtimeError "generator did not yield")

/-- The wrapper produced by the `option` decorator (option.py lines 186-201):
`return Nothing if fn(*args, **kwargs) is None else Some(fn(*args, **kwargs))`.
The decorated function is modelled as a state-threaded computation
`fn : σ → Val × σ` so that the two distinct calls the source makes are
observable (instantiating `σ := Nat` with a call counter counts invocations;
a deterministic function ignores its state argument).  The wrapper calls `fn`
once for the `is None` test; on the non-None path it calls `fn` a second time
and wraps that second result with the normalizing `Some` constructor. -/
def optionWrapper {σ : Type} (fn : σ → Val × σ) (s : σ) : Val × σ :=
  let p := fn s
  if p.1 = Val.pynone then (Val.nothing, p.2)
  else
    let q := fn p.2
    (Some q.1, q.2)

/-- `flatten` (functions.py lines 7-31):
`match f: case Some(inner) if isinstance(inner, Option): return flatten(inner)`
— a `Some` whose value is itself an `Option` (a `Some` instance or the
`Nothing` singleton) recurses on the inner option;
`case Ok(inner) if isinstance(inner, Result) and not isinstance(inner, Err):
return flatten(inner)` — an `Ok` whose value is itself an `Ok` recurses on it
(an `Err` inside `Ok` fails the guard); `case _: return f` otherwise. -/
def flatten : Val → Val
  | .some (.some v) => flatten (.some v)
  | .some .nothing => flatten .nothing
  | .ok (.ok v) => flatten (.ok v)
  | f => f

/-- The `Result` wrapped by an `AsyncResult` (async_result.py lines 8-15):
by construction every `AsyncResult._result` is an `Ok` or an `Err`. -/
inductive ResultV : Type where
  | ok : Val → ResultV
  | err : Val → ResultV
  deriving DecidableEq, Repr

/-- Outcome of `async with AsyncResult.do(**kwargs) as r`: the wrapped
`Result` of the yielded `AsyncResult`.  `okRec results` is
`cls(Ok(results))` where `results` is the name-to-value mapping built up in
insertion order; `errOut e` is `cls(Err(e))`. -/
inductive AsyncDoOut : Type where
  | okRec : List (String × Val) → AsyncDoOut
  | errOut : Val → AsyncDoOut
  deriving DecidableEq, Repr

/-- The `for name, coro in kwargs.items()` loop of `AsyncResult.do`
(async_result.py lines 44-55), carrying the `results` dict built so far and
the number of computations awaited.  Each named computation is an awaitable
that either resolves to an `AsyncResult` (modelled by its wrapped `ResultV`)
or raises a fault whose exception object is a `Val`
(`Except.error`).  One step: `async_result = await coro` (counts one await;
a fault here is caught by the surrounding `except Exception as e`, which
yields `cls(Err(e))`); `if async_result.is_err(): yield
cls(Err(await async_result.unwrap_err())); return` stops with that single
failure; `else: results[name] = await async_result.unwrap()` extends the dict
and the loop continues; after the loop, `yield cls(Ok(results))`. -/
def asyncDoLoop (results : List (String × Val)) (awaited : Nat) :
    List (String × Except Val ResultV) → AsyncDoOut × Nat
  | [] => (.okRec results, awaited)
  | (name, coro) :: rest =>
    match coro with
    | .error e => (.errOut e, awaited + 1)
    | .ok (.err e) => (.errOut e, awaited + 1)
    | .ok (.ok v) => asyncDoLoop (results ++ [(name, v)]) (awaited + 1) rest

/-- `AsyncResult.do` (async_result.py lines 17-55) over the caller-given
ordered mapping of names to awaitable computations, instrumented with the
number of computations awaited.  The return type has no fault channel: the
`try`/`except Exception` around the whole sequencing converts any fault into
`cls(Err(e))`, so no fault propagates past the construct. -/
def asyncResultDo (steps : List (String × Except Val ResultV)) : AsyncDoOut × Nat :=
  asyncDoLoop [] 0 steps

/-- A named computation that successfully resolves to the success channel
with value `p.2`: `await coro` returns an `AsyncResult` wrapping `Ok p.2`. -/
def okStep (p : String × Val) : String × Except Val ResultV :=
  (p.1, Except.ok (ResultV.ok p.2))

example : Some (Val.pyint 3) = Val.some (Val.pyint 3) := by decide
example : Some Val.pynone = Val.nothing := by decide
example : Some Val.nothing = Val.nothing := by decide
example : okR (Ok (Val.pyint 42)) = Val.some (Val.pyint 42) := by decide
example : errR (Err (Val.pystr "Error")) = Val.some (Val.pystr "Error") := by decide
example : unwrapR (Err (Val.pystr "e"))
    = Except.error (Fault.unwrapFailed (Val.err (Val.pystr "e"))) := rfl
example : flatten (Some (Some (Val.pyint 42))) = Val.some (Val.pyint 42) := by decide
example : flatten (Ok (Ok (Val.pyint 42))) = Val.ok (Val.pyint 42) := by decide
example : flatten (Ok (Err (Val.pystr "error"))) = Val.ok (Val.err (Val.pystr "error")) := by
  decide
example : flatten (Some Val.nothing) = Val.nothing := by decide
example :
    asyncResultDo [("a", Except.ok (ResultV.ok (Val.pyint 1))),
      ("b", Except.ok (ResultV.err (Val.pystr "boom"))),
      ("c", Except.ok (ResultV.ok (Val.pyint 3)))]
    = (AsyncDoOut.errOut (Val.pystr "boom"), 2) := by decide
example :
    asyncResultDo [("a", Except.ok (ResultV.ok (Val.pyint 1)))]
    = (AsyncDoOut.okRec [("a", Val.pyint 1)], 1) := by decide
example :
    optionDo Val.nothing (fun _ => Except.ok ())
    = DoOutcome.raised (Fault.runtimeError "generator did not yield") := by decide
example :
    optionWrapper (fun n : Nat => (Val.pyint 7, n + 1)) 0 = (Val.some (Val.pyint 7), 2) := by
  decide

/-- A `Some` instance whose `value` field is an absent marker (`None` or the
`Nothing` singleton), i.e. a violation of the §3 invariant. -/
def wrapsAbsentMarker : Val → Bool
  | .some .pynone => true
  | .some .nothing => true
  | _ => false

theorem wrapsAbsentMarker_Some (v : Val) : wrapsAbsentMarker (Some v) = false := by
  by_cases h : v = Val.pynone ∨ v = Val.nothing
  · simp [Some, h, wrapsAbsentMarker]
  · push_neg at h
    simp only [Some, h.1, h.2, or_self, if_false]
    cases v <;> simp_all [wrapsAbsentMarker]

theorem asyncDoLoop_ok_prefix (vs : List (String × Val)) :
    ∀ (acc : List (String × Val)) (n : Nat) (rest : List (String × Except Val ResultV)),
      asyncDoLoop acc n (vs.map okStep ++ rest)
        = asyncDoLoop (acc ++ vs) (n + vs.length) rest := by
  induction vs with
  | nil => intro acc n rest; simp
  | cons p vs ih =>
    intro acc n rest
    obtain ⟨name, v⟩ := p
    have hn : n + 1 + vs.length = n + (vs.length + 1) := by omega
    simp only [List.map_cons, List.cons_append, okStep, asyncDoLoop, List.append_eq,
      List.append_nil, ih, List.length_cons]
    rw [List.append_cons]
    simp [List.append_assoc, hn]

theorem flatten_flatten (f : Val) : flatten (flatten f) = flatten f := by
  induction f with
  | pynone => simp [flatten]
  | pyint n => simp [flatten]
  | pystr s => simp [flatten]
  | nothing => simp [flatten]
  | err v ih => simp [flatten]
  | some v ih => cases v <;> simp_all [flatten]
  | ok v ih => cases v <;> simp_all [flatten]

/-- C1: the claim says entering `Option.do` / `Result.do` on the failure
variant skips the block body without raising any exception to the caller.
Evaluating the embedded code at the failing inputs `Option.do(Nothing)` and
`Result.do(Err("boom"))` shows the opposite: the `contextmanager` generator
returns without yielding, so `RuntimeError` is raised to the caller of the
scope (the body is indeed skipped, but an exception escapes). -/
theorem C1_do_failure_variant_raises :
    optionDo Val.nothing (fun _ => Except.ok ())
      = DoOutcome.raised (Fault.runtimeError "generator did not yield")
    ∧ resultDo (Err (Val.pystr "boom")) (fun _ => Except.ok ())
      = DoOutcome.raised (Fault.runtimeError "generator did not yield") :=
  ⟨rfl, rfl⟩

/-- C2: `AsyncResult.do` evaluates the named computations sequentially in the
caller-given order.  First conjunct: if every computation before some step
resolves to the success channel and that step resolves to the failure channel
with error `e`, the construct yields an `AsyncResult` wrapping `Err e` alone,
and exactly the steps up to and including the failing one were awaited —
whatever the remaining steps are, they are never started.  Second conjunct:
if all computations resolve to the success channel, the construct yields an
`AsyncResult` wrapping `Ok` of the name-to-value record of every result.
Third conjunct: a fault raised while awaiting a step is caught and converted
into the failure channel (the return type of `asyncResultDo` has no fault
channel, so no fault propagates past the construct). -/
theorem C2_async_do_sequencing :
    (∀ (vs : List (String × Val)) (name : String) (e : Val)
        (suf : List (String × Except Val ResultV)),
      asyncResultDo (vs.map okStep ++ (name, Except.ok (ResultV.err e)) :: suf)
        = (AsyncDoOut.errOut e, vs.length + 1))
    ∧ (∀ vs : List (String × Val),
      asyncResultDo (vs.map okStep) = (AsyncDoOut.okRec vs, vs.length))
    ∧ (∀ (vs : List (String × Val)) (name : String) (ex : Val)
        (suf : List (String × Except Val ResultV)),
      asyncResultDo (vs.map okStep ++ (name, Except.error ex) :: suf)
        = (AsyncDoOut.errOut ex, vs.length + 1)) := by
  refine ⟨fun vs name e suf => ?_, fun vs => ?_, fun vs name ex suf => ?_⟩
  · simp [asyncResultDo, asyncDoLoop_ok_prefix, asyncDoLoop]
  · have h := asyncDoLoop_ok_prefix vs [] 0 []
    simpa [asyncResultDo, asyncDoLoop] using h
  · simp [asyncResultDo, asyncDoLoop_ok_prefix, asyncDoLoop]

/-- C3 counterexample: the conversions are not lossless for every value of the
preserved branch.  At `v = None`, `Ok(None).ok()` is `Some(None)`, which the
normalizing `Some` constructor collapses to `Nothing`: the result carries no
value at all (unwrapping it fails), so `None` is not preserved; likewise
`Err(None).err()` is `Nothing`. -/
theorem C3_counterexample_conversion_loses_none :
    okR (Ok Val.pynone) = Val.nothing
    ∧ okR (Ok Val.pynone) ≠ Val.some Val.pynone
    ∧ unwrapO (okR (Ok Val.pynone)) = Except.error (Fault.unwrapFailed Val.nothing)
    ∧ errR (Err Val.pynone) = Val.nothing :=
  ⟨rfl, by decide, rfl, rfl⟩

/-- C3 (amended): `Option.ok_or(error)`, `Result.ok()` and `Result.err()` are
total — defined for every variant of the receiver, always returning a
container of the converted kind — and lossless for the preserved branch for
every value that is not an absence marker: for every `v` other than `None`
and the `Nothing` singleton, `Ok(v).ok()` is a `Some` carrying exactly `v`
and `Err(v).err()` is a `Some` carrying exactly `v` (for the markers the
preserved branch collapses to `Nothing`). -/
theorem C3_conversions_total_lossless_amended (v e : Val)
    (hn : v ≠ Val.pynone) (hm : v ≠ Val.nothing) :
    okR (Ok v) = Val.some v
    ∧ errR (Err v) = Val.some v
    ∧ isResult (ok_or (Val.some v) e) = true
    ∧ isResult (ok_or Val.nothing e) = true
    ∧ isOption (okR (Ok v)) = true
    ∧ isOption (okR (Err e)) = true
    ∧ isOption (errR (Err v)) = true
    ∧ isOption (errR (Ok e)) = true := by
  refine ⟨?_, ?_, rfl, rfl, ?_, rfl, ?_, rfl⟩ <;>
    simp [okR, errR, Ok, Err, Some, ok_or, isOption, isResult, hn, hm]

theorem C3_conversions_total_lossless_amended_witness :
    okR (Ok (Val.pyint 42)) = Val.some (Val.pyint 42)
    ∧ errR (Err (Val.pyint 42)) = Val.some (Val.pyint 42)
    ∧ isResult (ok_or (Val.some (Val.pyint 42)) (Val.pystr "E")) = true
    ∧ isResult (ok_or Val.nothing (Val.pystr "E")) = true
    ∧ isOption (okR (Ok (Val.pyint 42))) = true
    ∧ isOption (okR (Err (Val.pystr "E"))) = true
    ∧ isOption (errR (Err (Val.pyint 42))) = true
    ∧ isOption (errR (Ok (Val.pystr "E"))) = true :=
  C3_conversions_total_lossless_amended (Val.pyint 42) (Val.pystr "E")
    (by decide) (by decide)

/-- C4: wrong-channel unwrap always fails with `UnwrapFailedError`:
`Ok(v).unwrap_err()` raises it for every `v`; `Err(e).unwrap()` raises it and
the fault's `halted_container` payload equals the original `Err(e)`;
`Nothing.unwrap()` raises it carrying the `Nothing` container. -/
theorem C4_wrong_channel_unwrap_fails :
    (∀ v : Val, unwrap_errR (Ok v) = Except.error (Fault.unwrapFailed (Ok v)))
    ∧ (∀ e : Val, unwrapR (Err e) = Except.error (Fault.unwrapFailed (Err e)))
    ∧ unwrapO Val.nothing = Except.error (Fault.unwrapFailed Val.nothing) :=
  ⟨fun _ => rfl, fun _ => rfl, rfl⟩

/-- C5: constructing `Some` with `None` or the `Nothing` singleton yields
`Nothing`, so no construction ever produces a `Some` wrapping an absent
marker — including the constructions performed inside `fmap`,
`filter_by_predicate` and the `option` lifting decorator — and no different
rule applies to nested containers: every non-marker value, container or not,
is wrapped unchanged. -/
theorem C5_some_never_wraps_absent_marker :
    Some Val.pynone = Val.nothing
    ∧ Some Val.nothing = Val.nothing
    ∧ (∀ v : Val, wrapsAbsentMarker (Some v) = false)
    ∧ (∀ (v : Val) (fn : Val → Val), wrapsAbsentMarker (fmapO (Val.some v) fn) = false)
    ∧ (∀ (v : Val) (p : Val → Bool), wrapsAbsentMarker (filterO (Val.some v) p) = false)
    ∧ (∀ (σ : Type) (fn : σ → Val × σ) (s : σ),
        wrapsAbsentMarker (optionWrapper fn s).1 = false)
    ∧ (∀ v : Val, v ≠ Val.pynone → v ≠ Val.nothing → Some v = Val.some v) := by
  refine ⟨rfl, rfl, wrapsAbsentMarker_Some, ?_, ?_, ?_, ?_⟩
  · intro v fn
    simp [fmapO, wrapsAbsentMarker_Some]
  · intro v p
    by_cases h : p v
    · simpa [filterO, h] using wrapsAbsentMarker_Some v
    · simp [filterO, h, wrapsAbsentMarker]
  · intro σ fn s
    by_cases h : (fn s).1 = Val.pynone
    · simp [optionWrapper, h, wrapsAbsentMarker]
    · simpa [optionWrapper, h] using wrapsAbsentMarker_Some (fn (fn s).2).1
  · intro v hn hm
    simp [Some, hn, hm]

theorem C5_some_never_wraps_absent_marker_witness :
    Some (Val.some (Val.pyint 1)) = Val.some (Val.some (Val.pyint 1)) :=
  C5_some_never_wraps_absent_marker.2.2.2.2.2.2 (Val.some (Val.pyint 1))
    (by decide) (by decide)

/-- C6: for every `Option` / `Result` in the successful variant whose
do-notation scope is entered, a fault raised while evaluating the block body
is caught by the scope and handed to `logging.error`, and control falls
through to after the scope — the fault is not propagated to the caller. -/
theorem C6_do_body_fault_contained (v : Val) (f : Fault)
    (body : Val → Except Fault Unit) (h : body v = Except.error f) :
    optionDo (Val.some v) body = DoOutcome.fellThrough true (Option.some f)
    ∧ resultDo (Val.ok v) body = DoOutcome.fellThrough true (Option.some f) := by
  constructor <;> simp [optionDo, resultDo, h]

theorem C6_do_body_fault_contained_witness :
    optionDo (Val.some (Val.pyint 2))
        (fun _ => Except.error (Fault.userExc (Val.pystr "boom")))
      = DoOutcome.fellThrough true (Option.some (Fault.userExc (Val.pystr "boom")))
    ∧ resultDo (Val.ok (Val.pyint 2))
        (fun _ => Except.error (Fault.userExc (Val.pystr "boom")))
      = DoOutcome.fellThrough true (Option.some (Fault.userExc (Val.pystr "boom"))) :=
  C6_do_body_fault_contained (Val.pyint 2) (Fault.userExc (Val.pystr "boom")) _ rfl

/-- C7: conversion round-trip — for every value `v` and error `e`,
`Some(v).ok_or(e).ok() == Some(v)` and `Nothing.ok_or(e).err() == Some(e)`
(Python structural equality; `Some` is the normalizing constructor). -/
theorem C7_conversion_round_trip (v e : Val) :
    okR (ok_or (Some v) e) = Some v
    ∧ errR (ok_or Val.nothing e) = Some e := by
  refine ⟨?_, rfl⟩
  by_cases h : v = Val.pynone ∨ v = Val.nothing
  · rcases h with h | h <;> subst h <;> rfl
  · push_neg at h
    simp [Some, h.1, h.2, ok_or, okR, Ok]

/-- C8: short-circuit — for every error `e` and every function `f`,
`Err(e).and_then(f) == Err(e)` and `f` is invoked zero times; for every `f`,
`Nothing.and_then(f) == Nothing` with `f` invoked zero times. -/
theorem C8_and_then_short_circuit :
    (∀ (e : Val) (f : Val → Val), and_thenR (Err e) f = (Err e, 0))
    ∧ (∀ f : Val → Val, and_thenO Val.nothing f = (Val.nothing, 0)) :=
  ⟨fun _ _ => rfl, fun _ => rfl⟩

/-- C9: the wrapper produced by the `option` decorator evaluates the decorated
function once for the `is None` test and, when that first result is not
`None`, evaluates it a second time and wraps the second result in `Some`.
First conjunct: for a call-indexed function `h` (the `n`-th invocation
returns `h n`), the wrapper returns `Nothing` after one invocation when
`h 0 = None`, and otherwise `Some (h 1)` — the second invocation's result —
after two invocations.  Second conjunct: for a deterministic function the
wrapper returns `Nothing` exactly when the result is `None` and `Some` of the
result otherwise, with the function invoked twice, not once, on the
non-absent path. -/
theorem C9_option_decorator_double_invocation :
    (∀ h : Nat → Val,
      optionWrapper (fun n => (h n, n + 1)) 0
        = if h 0 = Val.pynone then (Val.nothing, 1) else (Some (h 1), 2))
    ∧ (∀ g : Val,
      optionWrapper (fun n : Nat => (g, n + 1)) 0
        = if g = Val.pynone then (Val.nothing, 1) else (Some g, 2)) := by
  constructor
  · intro h
    by_cases hc : h 0 = Val.pynone <;> simp [optionWrapper, hc]
  · intro g
    by_cases hc : g = Val.pynone <;> simp [optionWrapper, hc]

/-- C10: `flatten` recursively collapses nested successful containers —
`flatten(Some(Some(v))) == flatten(Some(v))` and
`flatten(Ok(Ok(v))) == flatten(Ok(v))` — leaves an `Err` nested inside `Ok`
untouched, and is idempotent on every value (in particular on every `Option`
and `Result`). -/
theorem C10_flatten_collapse_idempotent (v e : Val) :
    flatten (Some (Some v)) = flatten (Some v)
    ∧ flatten (Ok (Ok v)) = flatten (Ok v)
    ∧ flatten (Ok (Err e)) = Ok (Err e)
    ∧ ∀ f : Val, flatten (flatten f) = flatten f := by
  refine ⟨?_, ?_, ?_, flatten_flatten⟩
  · by_cases h : v = Val.pynone ∨ v = Val.nothing
    · simp [Some, h]
    · push_neg at h
      simp [Some, h.1, h.2, flatten]
  · simp [Ok, flatten]
  · simp [Ok, Err, flatten]

end Flusso
